import Mathlib

/-!
Shallow embedding of `gimme/helpers.py` (Spotify "gimme"): a Flask helper
module that (a) enforces Google-authenticated, domain-allowlisted access on
routes (`login_required`) and (b) grants temporary access to a cloud project
by appending a conditional binding to its IAM policy
(`add_conditional_binding`).

Modelling conventions:
* JSON documents (`resp.json()` bodies, session values, policy documents)
  are the inductive type `JSON`; Python dict lookups `d[k]` that can raise
  `KeyError`/`TypeError` are `JSON.getKey` returning `Except PyErr JSON`.
* Python-level exceptions escaping the function are the `.error` case of
  `Except PyErr _`; the `.ok` case carries the function's visible outcome
  (flashed messages, rendered decision, session mutations, HTTP calls made).
* The external collaborators `validators.url`, `urlparse.urlparse(.).query`
  and `urlparse.parse_qsl` are passed in as function parameters (`urlValid`,
  `urlQuery`, `parse_qsl`); `urllib.quote_plus` is modelled concretely on
  UTF-8 bytes.
* `datetime.datetime.now(utc)` is a parameter `now : Nat`, microseconds
  since the epoch in UTC; `isoformat` reproduces Python's
  `datetime.isoformat()` for a UTC-aware datetime.
-/

namespace Gimme

/-- JSON values, as produced by `resp.json()`. -/
inductive JSON where
  | null
  | bool (b : Bool)
  | str (s : String)
  | num (n : Int)
  | arr (elems : List JSON)
  | obj (fields : List (String × JSON))
deriving Repr

/-- Python exceptions that the helpers can raise (and do not catch). -/
inductive PyErr where
  | keyError (key : String)
  | typeError
  | attributeError
deriving Repr, DecidableEq

/-- First-match association-list lookup (Python dict access on unique keys). -/
def lookupKey (fields : List (String × JSON)) (k : String) : Option JSON :=
  match fields with
  | [] => none
  | (k', v) :: rest => if k' = k then some v else lookupKey rest k

/-- Replace the value stored at key `k` (in-place dict/list mutation). -/
def setKey (fields : List (String × JSON)) (k : String) (v : JSON) :
    List (String × JSON) :=
  match fields with
  | [] => []
  | (k', v') :: rest =>
      if k' = k then (k', v) :: rest else (k', v') :: setKey rest k v

/-- Python `d[k]`: `KeyError` on a dict without the key, `TypeError` on
non-dict subscripting with a string key. -/
def JSON.getKey : JSON → String → Except PyErr JSON
  | .obj fields, k =>
      match lookupKey fields k with
      | some v => .ok v
      | none => .error (.keyError k)
  | _, _ => .error .typeError

/-- Python `d.get(k, None)` on a JSON body known to be a dict:
`none` when the key is absent. -/
def jsonGet (fields : List (String × JSON)) (k : String) : Option JSON :=
  lookupKey fields k

/-- Is this JSON value Python's `None`? -/
def JSON.isNull : JSON → Bool
  | .null => true
  | _ => false

/-- Python `d.get(k, None) is None`: the key is absent or mapped to
`null`. -/
def isNullOpt : Option JSON → Bool
  | none => true
  | some v => v.isNull

/-- Python `==` on JSON values (structural equality). -/
def JSON.beq : JSON → JSON → Bool
  | .null, .null => true
  | .bool a, .bool b => a == b
  | .str a, .str b => a == b
  | .num a, .num b => a == b
  | .arr a, .arr b => beqList a b
  | .obj a, .obj b => beqFields a b
  | _, _ => false
where
  beqList : List JSON → List JSON → Bool
    | [], [] => true
    | x :: xs, y :: ys => JSON.beq x y && beqList xs ys
    | _, _ => false
  beqFields : List (String × JSON) → List (String × JSON) → Bool
    | [], [] => true
    | (k, v) :: xs, (l, w) :: ys => k == l && JSON.beq v w && beqFields xs ys
    | _, _ => false

/-- One byte of Python 2 `urllib.quote_plus`: letters, digits and `_.-` are
kept, a space becomes `+`, everything else is percent-encoded in upper-case
hex. -/
def quoteByte (b : Nat) : String :=
  let c := Char.ofNat b
  if (b ≥ 65 ∧ b ≤ 90) ∨ (b ≥ 97 ∧ b ≤ 122) ∨ (b ≥ 48 ∧ b ≤ 57) ∨
      b = 95 ∨ b = 46 ∨ b = 45 then
    String.singleton c
  else if b = 32 then "+"
  else
    let hexDigit (n : Nat) : Char :=
      if n < 10 then Char.ofNat (48 + n) else Char.ofNat (55 + n)
    "%" ++ String.singleton (hexDigit (b / 16)) ++
      String.singleton (hexDigit (b % 16))

/-- UTF-8 encoding of one character, as byte values. -/
def utf8Bytes (c : Char) : List Nat :=
  let v := c.toNat
  if v < 128 then [v]
  else if v < 2048 then [192 + v / 64, 128 + v % 64]
  else if v < 65536 then [224 + v / 4096, 128 + v / 64 % 64, 128 + v % 64]
  else [240 + v / 262144, 128 + v / 4096 % 64, 128 + v / 64 % 64,
    128 + v % 64]

/-- `urllib.quote_plus` over the UTF-8 bytes of the input. -/
def quote_plus (s : String) : String :=
  String.join ((s.data.flatMap utf8Bytes).map quoteByte)

/-- Python `dict(pairs)[k]` as an option: with duplicate keys the last
occurrence wins, absent key gives `none`. -/
def pyDict (pairs : List (String × String)) (k : String) : Option String :=
  pairs.foldl (fun acc p => if p.1 = k then some p.2 else acc) none

/-- `project_from_field` from `helpers.py`: if the field validates as a URL,
take the URL-encoded `project` query parameter (empty string when absent);
otherwise URL-encode the raw value.  `urlValid` stands for `validators.url`,
`urlQuery` for `urlparse.urlparse(.).query` and `parse_qsl` for
`urlparse.parse_qsl`. -/
def project_from_field (urlValid : String → Bool) (urlQuery : String → String)
    (parse_qsl : String → List (String × String)) (value : String) : String :=
  if urlValid value then
    match pyDict (parse_qsl (urlQuery value)) "project" with
    | some x => quote_plus x
    | none => ""
  else
    quote_plus value

/-- `check_valid_domain` from `helpers.py`: Python `domain in valid_domains`
membership using `==`. -/
def check_valid_domain (domain : JSON) (valid_domains : List JSON) : Bool :=
  if valid_domains.any (fun v => JSON.beq domain v) then true else false

/-- Left-pad a decimal number with zeros to width `w` (Python `%0*d`). -/
def pad (w n : Nat) : String :=
  let s := toString n
  String.mk (List.replicate (w - s.length) '0') ++ s

/-- Proleptic-Gregorian date for a day count since 1970-01-01
(the standard era-based civil-from-days computation). -/
def civilFromDays (z0 : Nat) : Nat × Nat × Nat :=
  let z := z0 + 719468
  let era := z / 146097
  let doe := z % 146097
  let yoe := (doe - doe / 1460 + doe / 36524 - doe / 146096) / 365
  let y := yoe + era * 400
  let doy := doe - (365 * yoe + yoe / 4 - yoe / 100)
  let mp := (5 * doy + 2) / 153
  let d := doy - (153 * mp + 2) / 5 + 1
  let m := if mp < 10 then mp + 3 else mp - 9
  (if m ≤ 2 then y + 1 else y, m, d)

/-- Date-and-time part of `datetime.isoformat()` for a UTC-aware datetime
given as microseconds since the epoch; microseconds are printed only when
non-zero, as in Python. -/
def isoformatBase (t : Nat) : String :=
  let dm := civilFromDays (t / 86400000000)
  let rem := t % 86400000000
  let secs := rem / 1000000
  let micro := rem % 1000000
  pad 4 dm.1 ++ "-" ++ pad 2 dm.2.1 ++ "-" ++ pad 2 dm.2.2 ++ "T" ++
    pad 2 (secs / 3600) ++ ":" ++ pad 2 (secs % 3600 / 60) ++ ":" ++
    pad 2 (secs % 60) ++ (if micro = 0 then "" else "." ++ pad 6 micro)

/-- `datetime.datetime.now(utc).isoformat()`-style rendering: the UTC-aware
datetime always carries the `+00:00` offset suffix (`UTC.utcoffset` is the
zero timedelta in `helpers.py`). -/
def isoformat (t : Nat) : String :=
  isoformatBase t ++ "+00:00"

/-- The two keys `login_required` caches in the Flask `session`. -/
structure Session where
  domain : Option JSON
  account : Option JSON
deriving Repr

/-- An HTTP response as seen through `resp.status_code` / `resp.json()`. -/
structure HTTPResp where
  status : Nat
  body : JSON
deriving Repr

/-- The way a guarded route ends: redirect to the login flow, a 403
`sorry` page with one flashed error message, running the wrapped view
function, or an exception escaping uncaught. -/
inductive AuthResult where
  | redirectLogin
  | deny (message : String)
  | allow
  | raises (e : PyErr)
deriving Repr

/-- Does the route run the wrapped view function? -/
def AuthResult.isAllow : AuthResult → Bool
  | .allow => true
  | _ => false

/-- Does the route end in an uncaught exception? -/
def AuthResult.isRaises : AuthResult → Bool
  | .raises _ => true
  | _ => false

/-- Visible outcome of one run of the `decorated_route` closure:
the decision, the session store afterwards, and whether the
`/plus/v1/people/me` profile endpoint was called. -/
structure EnforceResult where
  outcome : AuthResult
  session : Session
  profileFetched : Bool
deriving Repr

/-- The `for email in body['emails']: ... break / else:` loop: the first
entry whose `'type'` equals `'account'` yields its `'value'`; `none` means
the loop fell through to `else`.  Entry subscripting can raise. -/
def findAccount : List JSON → Except PyErr (Option JSON)
  | [] => .ok none
  | email :: rest =>
      match email.getKey "type" with
      | .error e => .error e
      | .ok t =>
          if JSON.beq t (.str "account") then
            match email.getKey "value" with
            | .error e => .error e
            | .ok v => .ok (some v)
          else
            findAccount rest

/-- The final allowlist check plus dispatch shared by both exits of the
identity-resolution block: lines 96-103 of `helpers.py`. -/
def finishCheck (sess : Session) (fetched : Bool) (allowed : List JSON) :
    EnforceResult :=
  if check_valid_domain (sess.domain.getD .null) allowed then
    ⟨.allow, sess, fetched⟩
  else
    ⟨.deny ("The account you are logged in with does not match the " ++
      "configured whitelist"), sess, fetched⟩

/-- The route guard built by `login_required` in `helpers.py`, applied to one
request: `authorized` is `google.authorized`, `profile` the response the
single `google.get('/plus/v1/people/me')` would return, `config` the value of
`current_app.config['ALLOWED_GSUITE_DOMAINS']` when defined. -/
def login_required (authorized : Bool) (sess : Session) (profile : HTTPResp)
    (config : Option (List JSON)) : EnforceResult :=
  let allowed := config.getD []
  if ¬ authorized then
    ⟨.redirectLogin, sess, false⟩
  else if sess.domain.isSome ∧ sess.account.isSome then
    finishCheck sess false allowed
  else if profile.status ≠ 200 then
    ⟨.deny "Could not get your profile information from Google", sess, true⟩
  else
    match profile.body with
    | .obj fields =>
        if isNullOpt (jsonGet fields "domain") then
          ⟨.deny ("The response from the Google Plus API is missing " ++
            "a required field: domain"), sess, true⟩
        else
          let d := (jsonGet fields "domain").getD .null
          let sess1 : Session := ⟨some d, sess.account⟩
          match jsonGet fields "emails" with
          | none | some .null =>
              ⟨.deny ("The response from the Google Plus API is " ++
                "missing a required field: emails"), sess1, true⟩
          | some (.arr emails) =>
              match findAccount emails with
              | .ok (some v) =>
                  finishCheck ⟨some d, some v⟩ true allowed
              | .ok none =>
                  ⟨.deny ("The response from the Google Plus API did " ++
                    "not include an email of type: account"), sess1, true⟩
              | .error e => ⟨.raises e, sess1, true⟩
          | some (.str s) =>
              -- iterating a Python str yields its characters; a non-empty
              -- one raises on `email['type']`, an empty one falls to `else`
              if s = "" then
                ⟨.deny ("The response from the Google Plus API did " ++
                  "not include an email of type: account"), sess1, true⟩
              else ⟨.raises .typeError, sess1, true⟩
          | some (.obj ofields) =>
              -- iterating a Python dict yields its keys; a non-empty one
              -- raises on `email['type']`, an empty one falls to `else`
              if ofields.isEmpty then
                ⟨.deny ("The response from the Google Plus API did " ++
                  "not include an email of type: account"), sess1, true⟩
              else ⟨.raises .typeError, sess1, true⟩
          | some _ => ⟨.raises .typeError, sess1, true⟩
    | _ => ⟨.raises .attributeError, sess, true⟩

/-- `https://cloudresourcemanager.googleapis.com/v1/projects`. -/
def CLOUD_RM : String :=
  "https://cloudresourcemanager.googleapis.com/v1/projects"

/-- The fields of the grant form read by `add_conditional_binding`. -/
structure Form where
  project : String
  period : Nat
  target : String
  domain : String
  access : String
deriving Repr

/-- A network call issued through the OAuth session. -/
inductive Call where
  | getIamPolicy (url : String)
  | setIamPolicy (url : String) (body : JSON)
deriving Repr

/-- Visible outcome of one run of `add_conditional_binding`: the flashed
`(message, category)` pairs and the POSTs issued, in order, plus the
exception escaping uncaught when one is raised (the calls already issued
before the raise are retained). -/
structure GrantResult where
  flashes : List (String × String)
  calls : List Call
  exn : Option PyErr
deriving Repr

/-- The conditional binding dict literal built at lines 145-151 of
`helpers.py`. -/
def mkBinding (expiry account target domain role : String) : JSON :=
  .obj [("condition", .obj [
          ("expression",
            .str ("request.time < timestamp(\"" ++ expiry ++ "\")")),
          ("title", .str ("granted by " ++ account))]),
        ("members", .arr [.str ("user:" ++ target ++ "@" ++ domain)]),
        ("role", .str role)]

/-- `new_policy['policy']['bindings'].append(binding)`: raises `KeyError`
when the fetched policy body has no `'bindings'` key, `TypeError` when the
body is not a dict, `AttributeError` when `'bindings'` is not a list. -/
def appendBinding (body binding : JSON) : Except PyErr JSON :=
  match body with
  | .obj fields =>
      match lookupKey fields "bindings" with
      | some (.arr bs) =>
          .ok (.obj (setKey fields "bindings" (.arr (bs ++ [binding]))))
      | some _ => .error .attributeError
      | none => .error (.keyError "bindings")
  | _ => .error .typeError

/-- Python `str()` of a JSON value as used by `'...'.format(x)`. -/
def pyStr : JSON → String
  | .null => "None"
  | .bool b => if b then "True" else "False"
  | .str s => s
  | .num n => toString n
  | .arr _ => "[...]"
  | .obj _ => "{...}"

/-- `add_conditional_binding` from `helpers.py`: `now` is the value of
`datetime.datetime.now(utc)` in microseconds since the epoch, `account` the
string in `session['account']`, `getResp`/`setResp` the responses the two
POSTs would return. -/
def add_conditional_binding (urlValid : String → Bool)
    (urlQuery : String → String)
    (parse_qsl : String → List (String × String))
    (now : Nat) (account : String) (form : Form)
    (getResp setResp : HTTPResp) : GrantResult :=
  let project := project_from_field urlValid urlQuery parse_qsl form.project
  if project = "" then
    ⟨[("Could not find project ID in provided URL", "error")], [], none⟩
  else
    let getUrl := CLOUD_RM ++ "/" ++ project ++ ":getIamPolicy"
    if getResp.status ≠ 200 then
      ⟨[("Could not fetch IAM policy for: " ++ project ++
        ". This likely means the project ID was invalid or you do not " ++
        "have access to that project.", "error")],
        [.getIamPolicy getUrl], none⟩
    else
      let expiry := isoformat (now + form.period * 60000000)
      let binding := mkBinding expiry account form.target form.domain
        form.access
      match appendBinding getResp.body binding with
      | .error e => ⟨[], [.getIamPolicy getUrl], some e⟩
      | .ok newBody =>
          let newPolicy : JSON := .obj [("policy", newBody)]
          let setUrl := CLOUD_RM ++ "/" ++ project ++ ":setIamPolicy"
          let calls := [Call.getIamPolicy getUrl,
            Call.setIamPolicy setUrl newPolicy]
          if setResp.status ≠ 200 then
            match setResp.body.getKey "error" with
            | .error e => ⟨[], calls, some e⟩
            | .ok errObj =>
                match errObj.getKey "message" with
                | .error e => ⟨[], calls, some e⟩
                | .ok m =>
                    ⟨[("Could not apply new policy: " ++ pyStr m,
                      "error")], calls, none⟩
          else
            ⟨[("Great success, they\x27ll have access in a minute!",
              "success")], calls, none⟩

/-- An entry of the profile's `emails` list on which the loop body cannot
raise: it is a dict with a `type` field, and when that type is `account` it
also has a `value` field. -/
def emailWF (e : JSON) : Bool :=
  match e with
  | .obj fs =>
      match lookupKey fs "type" with
      | some t =>
          if JSON.beq t (.str "account") then (lookupKey fs "value").isSome
          else true
      | none => false
  | _ => false

/-- A profile body on which `login_required` cannot raise: a dict whose
`emails` field, when present and non-null, is a list of well-formed
entries. -/
def profileWF (body : JSON) : Bool :=
  match body with
  | .obj fs =>
      match lookupKey fs "emails" with
      | some (.arr es) => es.all emailWF
      | some .null => true
      | some _ => false
      | none => true
  | _ => false

/-- A fetched policy body on which the binding append cannot raise: a dict
whose `bindings` field is a list. -/
def policyBodyWF (body : JSON) : Bool :=
  match body with
  | .obj fs =>
      match lookupKey fs "bindings" with
      | some (.arr _) => true
      | _ => false
  | _ => false

/-- A failed `setIamPolicy` body on which the error handler cannot raise:
a dict whose `error` field is a dict with a `message` field. -/
def errorBodyWF (body : JSON) : Bool :=
  match body with
  | .obj fs =>
      match lookupKey fs "error" with
      | some (.obj efs) => (lookupKey efs "message").isSome
      | _ => false
  | _ => false

/-- An `emails` entry that is a dict whose `type` field exists and is not
`account`: the loop skips it without raising. -/
def noAccountEntry (e : JSON) : Bool :=
  match e with
  | .obj fs =>
      match lookupKey fs "type" with
      | some t => ! JSON.beq t (.str "account")
      | none => false
  | _ => false

theorem findAccount_ok_of_wf (es : List JSON)
    (h : ∀ e ∈ es, emailWF e = true) : ∃ o, findAccount es = .ok o := by
  induction es with
  | nil => exact ⟨none, rfl⟩
  | cons e rest ih =>
      have he := h e (by simp)
      match e with
      | .obj fs =>
          match hty : lookupKey fs "type" with
          | some t =>
              simp only [emailWF, hty] at he
              by_cases hacc : JSON.beq t (.str "account") = true
              · rw [if_pos hacc] at he
                match hv : lookupKey fs "value" with
                | some v =>
                    exact ⟨some v, by
                      simp [findAccount, JSON.getKey, hty, hacc, hv]⟩
                | none => rw [hv] at he; simp at he
              · obtain ⟨o, ho⟩ := ih (fun e' he' => h e' (by simp [he']))
                exact ⟨o, by
                  simp [findAccount, JSON.getKey, hty, hacc, ho]⟩
          | none => simp [emailWF, hty] at he
      | .null => simp [emailWF] at he
      | .bool b => simp [emailWF] at he
      | .str s => simp [emailWF] at he
      | .num n => simp [emailWF] at he
      | .arr xs => simp [emailWF] at he

theorem findAccount_none_of_noAccount (es : List JSON)
    (h : ∀ e ∈ es, noAccountEntry e = true) : findAccount es = .ok none := by
  induction es with
  | nil => rfl
  | cons e rest ih =>
      have he := h e (by simp)
      match e with
      | .obj fs =>
          match hty : lookupKey fs "type" with
          | some t =>
              simp only [noAccountEntry, hty, Bool.not_eq_true'] at he
              have hrest := ih (fun e' he' => h e' (by simp [he']))
              simp [findAccount, JSON.getKey, hty, he, hrest]
          | none => simp [noAccountEntry, hty] at he
      | .null => simp [noAccountEntry] at he
      | .bool b => simp [noAccountEntry] at he
      | .str s => simp [noAccountEntry] at he
      | .num n => simp [noAccountEntry] at he
      | .arr xs => simp [noAccountEntry] at he

theorem lookupKey_setKey_self (fs : List (String × JSON)) (k : String)
    (v w : JSON) (h : lookupKey fs k = some v) :
    lookupKey (setKey fs k w) k = some w := by
  induction fs with
  | nil => simp [lookupKey] at h
  | cons p rest ih =>
      by_cases hk : p.1 = k
      · simp [setKey, lookupKey, hk]
      · simp only [lookupKey, hk, if_false] at h
        simp [setKey, lookupKey, hk, ih h]

theorem check_valid_domain_eq_any (d : JSON) (L : List JSON) :
    check_valid_domain d L = L.any (fun v => JSON.beq d v) := by
  unfold check_valid_domain
  split <;> simp_all

theorem any_map_str (d : String) (L : List String) :
    (L.map JSON.str).any (fun v => JSON.beq (.str d) v) = decide (d ∈ L) := by
  induction L with
  | nil => rfl
  | cons x xs ih =>
      have h1 : JSON.beq (.str d) (.str x) = (d == x) := rfl
      simp only [List.map_cons, List.any_cons, ih, h1]
      by_cases hx : d = x
      · subst hx; simp
      · simp [hx]

theorem check_valid_domain_str (d : String) (L : List String) :
    check_valid_domain (.str d) (L.map .str) = decide (d ∈ L) := by
  rw [check_valid_domain_eq_any, any_map_str]

theorem check_valid_domain_nil (d : JSON) : check_valid_domain d [] = false :=
  rfl

theorem finishCheck_nil (sess : Session) (fetched : Bool) :
    finishCheck sess fetched [] =
      ⟨.deny ("The account you are logged in with does not match the " ++
        "configured whitelist"), sess, fetched⟩ :=
  rfl

theorem finishCheck_not_raises (sess : Session) (fetched : Bool)
    (allowed : List JSON) :
    (finishCheck sess fetched allowed).outcome.isRaises = false := by
  unfold finishCheck
  split <;> rfl

theorem finishCheck_fetched (sess : Session) (fetched : Bool)
    (allowed : List JSON) :
    (finishCheck sess fetched allowed).profileFetched = fetched := by
  unfold finishCheck
  split <;> rfl

/-- C7: when the session store already holds both the `domain` and the
`account` key, `login_required` never calls the profile endpoint, whatever
the authorization state, the profile response and the configuration. -/
theorem C7_cached_identity_skips_profile_fetch (d a : JSON)
    (authorized : Bool) (profile : HTTPResp) (config : Option (List JSON)) :
    (login_required authorized ⟨some d, some a⟩ profile
      config).profileFetched = false := by
  unfold login_required
  by_cases h : authorized
  · simp only [h, not_true_eq_false, if_false, Option.isSome_some,
      and_self, if_true]
    unfold finishCheck
    split <;> rfl
  · simp [h]

/-- C10: when `ALLOWED_GSUITE_DOMAINS` is not configured the allowlist
defaults to `[]`, so no run of the guard ever allows the wrapped view, and
every identified user (cached domain and account) is denied with the
whitelist-mismatch message, regardless of the domain. -/
theorem C10_missing_config_fails_closed :
    (∀ (authorized : Bool) (sess : Session) (profile : HTTPResp),
      (login_required authorized sess profile none).outcome.isAllow =
        false) ∧
    (∀ (d a : JSON) (profile : HTTPResp),
      login_required true ⟨some d, some a⟩ profile none =
        ⟨.deny ("The account you are logged in with does not match the " ++
          "configured whitelist"), ⟨some d, some a⟩, false⟩) := by
  constructor
  · intro authorized sess profile
    unfold login_required
    rw [show (none : Option (List JSON)).getD [] = [] from rfl]
    simp only [finishCheck_nil]
    repeat' split
    all_goals rfl
  · intro d a profile
    rfl

/-- C6: the allowlist check is exact, case-sensitive string membership
(`Example.com` does not match `example.com`), and for a session whose
cached domain is the string `d` the guard allows exactly when `d` is an
element of the configured list, denying with the whitelist-mismatch message
otherwise. -/
theorem C6_domain_check_is_exact_membership :
    (∀ (d : String) (L : List String),
      check_valid_domain (.str d) (L.map .str) = decide (d ∈ L)) ∧
    check_valid_domain (.str "Example.com") [.str "example.com"] = false ∧
    (∀ (d : String) (a : JSON) (L : List String) (profile : HTTPResp),
      login_required true ⟨some (.str d), some a⟩ profile
          (some (L.map .str)) =
        if d ∈ L then ⟨.allow, ⟨some (.str d), some a⟩, false⟩
        else
          ⟨.deny ("The account you are logged in with does not match " ++
            "the configured whitelist"), ⟨some (.str d), some a⟩, false⟩) := by
  refine ⟨check_valid_domain_str, rfl, ?_⟩
  intro d a L profile
  unfold login_required
  simp only [not_true_eq_false, if_false, Option.isSome_some, and_self,
    if_true, Option.getD_some]
  unfold finishCheck
  rw [show (Session.mk (some (.str d)) (some a)).domain.getD .null =
      .str d from rfl]
  rw [check_valid_domain_str]
  by_cases h : d ∈ L
  · simp [h]
  · simp [h]

/-- C8: when project-ID resolution yields the empty string,
`add_conditional_binding` flashes exactly the message
`Could not find project ID in provided URL` and issues no network call. -/
theorem C8_empty_project_aborts_without_calls
    (urlValid : String → Bool) (urlQuery : String → String)
    (parse_qsl : String → List (String × String)) (now : Nat)
    (account : String) (form : Form) (getResp setResp : HTTPResp)
    (h : project_from_field urlValid urlQuery parse_qsl form.project = "") :
    add_conditional_binding urlValid urlQuery parse_qsl now account form
        getResp setResp =
      ⟨[("Could not find project ID in provided URL", "error")], [],
        none⟩ := by
  unfold add_conditional_binding
  simp [h]

/-- C8 witness: a concrete empty form field resolves to the empty project
ID and the grant aborts with the fixed message and an empty call trace. -/
theorem C8_witness :
    add_conditional_binding (fun _ => false) (fun _ => "") (fun _ => []) 0
        "a" ⟨"", 1, "t", "d", "r"⟩ ⟨200, .null⟩ ⟨200, .null⟩ =
      ⟨[("Could not find project ID in provided URL", "error")], [],
        none⟩ :=
  C8_empty_project_aborts_without_calls _ _ _ _ _ _ _ _ rfl

/-- C4: when the `getIamPolicy` POST returns a non-success status, the
grant ends with a single ERROR flash whose message mentions the resolved
project ID, and the call trace contains only the `getIamPolicy` POST —
no `setIamPolicy` call is issued. -/
theorem C4_get_failure_aborts_before_write
    (urlValid : String → Bool) (urlQuery : String → String)
    (parse_qsl : String → List (String × String)) (now : Nat)
    (account : String) (form : Form) (getResp setResp : HTTPResp)
    (hproj : project_from_field urlValid urlQuery parse_qsl
      form.project ≠ "")
    (hst : getResp.status ≠ 200) :
    ∃ msg pre post,
      add_conditional_binding urlValid urlQuery parse_qsl now account form
          getResp setResp =
        ⟨[(msg, "error")],
         [.getIamPolicy (CLOUD_RM ++ "/" ++
           project_from_field urlValid urlQuery parse_qsl form.project ++
           ":getIamPolicy")], none⟩ ∧
      msg = pre ++
        project_from_field urlValid urlQuery parse_qsl form.project ++
        post := by
  refine ⟨_, "Could not fetch IAM policy for: ",
    ". This likely means the project ID was invalid or you do not " ++
      "have access to that project.", ?_, rfl⟩
  unfold add_conditional_binding
  simp [hproj, hst, String.append_assoc]

/-- C4 witness: a concrete 403 on `getIamPolicy` for project `proj`. -/
theorem C4_witness :
    ∃ msg pre post,
      add_conditional_binding (fun _ => false) (fun _ => "") (fun _ => [])
          0 "admin" ⟨"proj", 30, "bob", "example.com", "roles/viewer"⟩
          ⟨403, .null⟩ ⟨200, .null⟩ =
        ⟨[(msg, "error")],
         [.getIamPolicy (CLOUD_RM ++ "/" ++
           project_from_field (fun _ => false) (fun _ => "") (fun _ => [])
             (Form.mk "proj" 30 "bob" "example.com" "roles/viewer").project
           ++ ":getIamPolicy")], none⟩ ∧
      msg = pre ++
        project_from_field (fun _ => false) (fun _ => "") (fun _ => [])
          (Form.mk "proj" 30 "bob" "example.com" "roles/viewer").project ++
        post :=
  C4_get_failure_aborts_before_write _ _ _ _ _ _ _ _ (by decide) (by decide)

/-- C5: when `setIamPolicy` fails and its body holds `error.message = M`,
the grant ends with the single ERROR flash
`Could not apply new policy: M`, surfacing `M` verbatim. -/
theorem C5_set_failure_surfaces_remote_message
    (urlValid : String → Bool) (urlQuery : String → String)
    (parse_qsl : String → List (String × String)) (now : Nat)
    (account : String) (form : Form) (getResp setResp : HTTPResp)
    (fs efs mfs : List (String × JSON)) (bs : List JSON) (M : String)
    (hproj : project_from_field urlValid urlQuery parse_qsl
      form.project ≠ "")
    (hget : getResp.status = 200)
    (hbody : getResp.body = .obj fs)
    (hbind : lookupKey fs "bindings" = some (.arr bs))
    (hsst : setResp.status ≠ 200)
    (hsbody : setResp.body = .obj efs)
    (herr : lookupKey efs "error" = some (.obj mfs))
    (hmsg : lookupKey mfs "message" = some (.str M)) :
    (add_conditional_binding urlValid urlQuery parse_qsl now account form
        getResp setResp).flashes =
      [("Could not apply new policy: " ++ M, "error")] ∧
    (add_conditional_binding urlValid urlQuery parse_qsl now account form
        getResp setResp).exn = none := by
  unfold add_conditional_binding appendBinding
  simp [hproj, hget, hbody, hbind, hsst, hsbody, herr, hmsg, JSON.getKey,
    pyStr]

/-- C5 witness: a concrete 400 on `setIamPolicy` with body
`{error: {message: "bad role"}}` surfaces exactly `bad role`. -/
theorem C5_witness :
    (add_conditional_binding (fun _ => false) (fun _ => "") (fun _ => [])
        0 "admin" ⟨"proj", 30, "bob", "example.com", "roles/viewer"⟩
        ⟨200, .obj [("bindings", .arr [])]⟩
        ⟨400, .obj [("error", .obj [("message", .str "bad role")])]⟩
      ).flashes =
      [("Could not apply new policy: " ++ "bad role", "error")] ∧
    (add_conditional_binding (fun _ => false) (fun _ => "") (fun _ => [])
        0 "admin" ⟨"proj", 30, "bob", "example.com", "roles/viewer"⟩
        ⟨200, .obj [("bindings", .arr [])]⟩
        ⟨400, .obj [("error", .obj [("message", .str "bad role")])]⟩
      ).exn = none :=
  C5_set_failure_surfaces_remote_message _ _ _ _ _ _ _ _ _ _ _ _ _
    (by decide) rfl rfl rfl (by decide) rfl rfl rfl

/-- C3: `project_from_field` returns the URL-encoded `project` query value
when the field validates as a URL and the parsed query has that key, the
empty string when it validates as a URL without that key, and the
URL-encoded raw value when it does not validate as a URL. -/
theorem C3_project_resolution_cases (urlValid : String → Bool)
    (urlQuery : String → String)
    (parse_qsl : String → List (String × String)) (value : String) :
    (∀ x, urlValid value = true →
      pyDict (parse_qsl (urlQuery value)) "project" = some x →
      project_from_field urlValid urlQuery parse_qsl value =
        quote_plus x) ∧
    (urlValid value = true →
      pyDict (parse_qsl (urlQuery value)) "project" = none →
      project_from_field urlValid urlQuery parse_qsl value = "") ∧
    (urlValid value = false →
      project_from_field urlValid urlQuery parse_qsl value =
        quote_plus value) := by
  refine ⟨?_, ?_, ?_⟩
  · intro x hv hq
    unfold project_from_field
    simp [hv, hq]
  · intro hv hq
    unfold project_from_field
    simp [hv, hq]
  · intro hv
    unfold project_from_field
    simp [hv]

/-- C3 witness: the three cases at concrete inputs. -/
theorem C3_witness :
    project_from_field (fun _ => true) (fun _ => "project=a b")
        (fun _ => [("project", "a b")]) "https://x/?project=a b" =
      quote_plus "a b" ∧
    project_from_field (fun _ => true) (fun _ => "q=1")
        (fun _ => [("q", "1")]) "https://x/?q=1" = "" ∧
    project_from_field (fun _ => false) (fun _ => "") (fun _ => [])
        "raw-id" = quote_plus "raw-id" :=
  ⟨(C3_project_resolution_cases _ _ _ _).1 "a b" rfl rfl,
   (C3_project_resolution_cases _ _ _ _).2.1 rfl rfl,
   (C3_project_resolution_cases _ _ _ _).2.2 rfl⟩

/-- C2: with a non-empty resolved project and a successful policy fetch
whose body holds the bindings list `bs`, the grant issues exactly the fetch
and one write whose posted policy's bindings are `bs` followed by one new
conditional binding: expiry `isoformat (now + periodMinutes)` (an ISO-8601
string ending in `+00:00`) inside the `request.time < timestamp(...)`
expression, title `granted by <account>`, the single member
`user:<target>@<domain>`, and the form's role. -/
theorem C2_grant_appends_single_binding (urlValid : String → Bool)
    (urlQuery : String → String)
    (parse_qsl : String → List (String × String)) (now : Nat)
    (account : String) (form : Form) (getResp setResp : HTTPResp)
    (fs : List (String × JSON)) (bs : List JSON)
    (hproj : project_from_field urlValid urlQuery parse_qsl
      form.project ≠ "")
    (hget : getResp.status = 200)
    (hbody : getResp.body = .obj fs)
    (hbind : lookupKey fs "bindings" = some (.arr bs)) :
    ∃ newBinding,
      newBinding = JSON.obj [
        ("condition", .obj [
          ("expression", .str ("request.time < timestamp(\"" ++
            isoformat (now + form.period * 60000000) ++ "\")")),
          ("title", .str ("granted by " ++ account))]),
        ("members", .arr [.str ("user:" ++ form.target ++ "@" ++
          form.domain)]),
        ("role", .str form.access)] ∧
      (∃ s, isoformat (now + form.period * 60000000) = s ++ "+00:00") ∧
      (add_conditional_binding urlValid urlQuery parse_qsl now account form
          getResp setResp).calls =
        [.getIamPolicy (CLOUD_RM ++ "/" ++
            project_from_field urlValid urlQuery parse_qsl form.project ++
            ":getIamPolicy"),
         .setIamPolicy (CLOUD_RM ++ "/" ++
            project_from_field urlValid urlQuery parse_qsl form.project ++
            ":setIamPolicy")
           (.obj [("policy",
             .obj (setKey fs "bindings" (.arr (bs ++ [newBinding]))))])] ∧
      lookupKey (setKey fs "bindings" (.arr (bs ++ [newBinding])))
          "bindings" = some (.arr (bs ++ [newBinding])) := by
  refine ⟨_, rfl, ⟨isoformatBase (now + form.period * 60000000), rfl⟩, ?_,
    lookupKey_setKey_self fs "bindings" _ _ hbind⟩
  unfold add_conditional_binding appendBinding
  simp only [hproj, if_false]
  have hg2 : ¬ (getResp.status ≠ 200) := by simp [hget]
  simp only [hg2, if_false]
  simp only [hbody, hbind]
  by_cases hs2 : setResp.status ≠ 200
  · rw [if_pos hs2]
    cases hk : setResp.body.getKey "error" with
    | error e => simp [hk, mkBinding]
    | ok errObj =>
        cases hk2 : errObj.getKey "message" with
        | error e => simp [hk, hk2, mkBinding]
        | ok m => simp [hk, hk2, mkBinding]
  · rw [if_neg hs2]
    simp [mkBinding]

/-- C2 witness: a concrete successful fetch with one pre-existing binding
kept and the new binding appended after it. -/
theorem C2_witness :
    ∃ newBinding,
      newBinding = JSON.obj [
        ("condition", .obj [
          ("expression", .str ("request.time < timestamp(\"" ++
            isoformat (0 + 30 * 60000000) ++ "\")")),
          ("title", .str ("granted by " ++ "admin"))]),
        ("members", .arr [.str ("user:" ++ "bob" ++ "@" ++ "example.com")]),
        ("role", .str "roles/viewer")] ∧
      (∃ s, isoformat (0 + 30 * 60000000) = s ++ "+00:00") ∧
      (add_conditional_binding (fun _ => false) (fun _ => "") (fun _ => [])
          0 "admin"
          (Form.mk "proj" 30 "bob" "example.com" "roles/viewer")
          ⟨200, .obj [("bindings", .arr [.str "old"]),
            ("etag", .str "abc")]⟩
          ⟨200, .null⟩).calls =
        [.getIamPolicy (CLOUD_RM ++ "/" ++
            project_from_field (fun _ => false) (fun _ => "") (fun _ => [])
              (Form.mk "proj" 30 "bob" "example.com" "roles/viewer").project
            ++ ":getIamPolicy"),
         .setIamPolicy (CLOUD_RM ++ "/" ++
            project_from_field (fun _ => false) (fun _ => "") (fun _ => [])
              (Form.mk "proj" 30 "bob" "example.com" "roles/viewer").project
            ++ ":setIamPolicy")
           (.obj [("policy",
             .obj (setKey [("bindings", .arr [.str "old"]),
               ("etag", .str "abc")] "bindings"
               (.arr ([.str "old"] ++ [newBinding]))))])] ∧
      lookupKey (setKey [("bindings", .arr [.str "old"]),
          ("etag", .str "abc")] "bindings"
          (.arr ([.str "old"] ++ [newBinding]))) "bindings" =
        some (.arr ([.str "old"] ++ [newBinding])) :=
  C2_grant_appends_single_binding (fun _ => false) (fun _ => "")
    (fun _ => []) 0 "admin" (Form.mk "proj" 30 "bob" "example.com"
      "roles/viewer")
    ⟨200, .obj [("bindings", .arr [.str "old"]), ("etag", .str "abc")]⟩
    ⟨200, .null⟩
    [("bindings", .arr [.str "old"]), ("etag", .str "abc")] [.str "old"]
    (by decide) rfl rfl rfl

/-- C9: when the profile fetch succeeds with a non-null `domain` but the
`emails` field is missing, null, or holds only non-`account`-typed entries,
the guard denies with an email-related message and the session is left
partial: `domain` cached, `account` still unset. -/
theorem C9_partial_session_on_email_failure
    (sess : Session) (profile : HTTPResp) (config : Option (List JSON))
    (fs : List (String × JSON)) (d : JSON)
    (hacct : sess.account = none)
    (hst : profile.status = 200)
    (hbody : profile.body = .obj fs)
    (hdom : lookupKey fs "domain" = some d)
    (hnn : d.isNull = false)
    (hmail : lookupKey fs "emails" = none ∨
      lookupKey fs "emails" = some .null ∨
      ∃ es, lookupKey fs "emails" = some (.arr es) ∧
        ∀ e ∈ es, noAccountEntry e = true) :
    ∃ msg, login_required true sess profile config =
        ⟨.deny msg, ⟨some d, none⟩, true⟩ ∧
      (msg = "The response from the Google Plus API is " ++
          "missing a required field: emails" ∨
       msg = "The response from the Google Plus API did " ++
          "not include an email of type: account") := by
  have hnc : ¬ (sess.domain.isSome ∧ sess.account.isSome) := by
    simp [hacct]
  rcases hmail with hm | hm | ⟨es, hm, hno⟩
  · refine ⟨_, ?_, Or.inl rfl⟩
    simp [login_required, hnc, hst, hbody, jsonGet, hdom, isNullOpt, hnn,
      hacct, hm]
  · refine ⟨_, ?_, Or.inl rfl⟩
    simp [login_required, hnc, hst, hbody, jsonGet, hdom, isNullOpt, hnn,
      hacct, hm]
  · have hfa := findAccount_none_of_noAccount es hno
    refine ⟨_, ?_, Or.inr rfl⟩
    simp [login_required, hnc, hst, hbody, jsonGet, hdom, isNullOpt, hnn,
      hacct, hm, hfa]

/-- C9 witness: a fresh session, a 200 profile with `domain` but no
`emails` field: the guard denies and caches only the domain. -/
theorem C9_witness :
    ∃ msg, login_required true ⟨none, none⟩
        ⟨200, .obj [("domain", .str "acme.com")]⟩ none =
        ⟨.deny msg, ⟨some (.str "acme.com"), none⟩, true⟩ ∧
      (msg = "The response from the Google Plus API is " ++
          "missing a required field: emails" ∨
       msg = "The response from the Google Plus API did " ++
          "not include an email of type: account") :=
  C9_partial_session_on_email_failure _ _ _ _ _ rfl rfl rfl rfl rfl
    (Or.inl rfl)

/-- C1 counterexample: a successful `getIamPolicy` whose 200 body lacks a
`bindings` list makes `add_conditional_binding` end in an uncaught
`KeyError` with no user-visible message flashed at all, contradicting the
claim that every error is handled locally with exactly one message. -/
theorem C1_counterexample :
    add_conditional_binding (fun _ => false) (fun _ => "") (fun _ => []) 0
        "admin" ⟨"proj", 30, "bob", "example.com", "roles/viewer"⟩
        ⟨200, .obj []⟩ ⟨200, .obj []⟩ =
      ⟨[], [.getIamPolicy (CLOUD_RM ++ "/" ++ "proj" ++ ":getIamPolicy")],
        some (.keyError "bindings")⟩ := by
  rfl

/-- C1 amended: the errors the code checks for are handled locally with
one user-visible outcome, provided the remote bodies are well-formed: a
profile body whose `emails` entries are dicts with a `type` (and a `value`
when the type is `account`) never makes the guard raise; a fetched policy
body with a `bindings` list and a set-failure body with `error.message`
make the grant finish without an exception and with exactly one flashed
message.  (Without these shape assumptions the code raises, as the
counterexample shows.) -/
theorem C1_checked_errors_handled_when_wellformed :
    (∀ (authorized : Bool) (sess : Session) (profile : HTTPResp)
        (config : Option (List JSON)),
      profileWF profile.body = true →
      (login_required authorized sess profile config).outcome.isRaises =
        false) ∧
    (∀ (urlValid : String → Bool) (urlQuery : String → String)
        (parse_qsl : String → List (String × String)) (now : Nat)
        (account : String) (form : Form) (getResp setResp : HTTPResp),
      policyBodyWF getResp.body = true →
      (setResp.status = 200 ∨ errorBodyWF setResp.body = true) →
      (add_conditional_binding urlValid urlQuery parse_qsl now account
        form getResp setResp).exn = none ∧
      (add_conditional_binding urlValid urlQuery parse_qsl now account
        form getResp setResp).flashes.length = 1) := by
  constructor
  · intro authorized sess profile config hwf
    unfold login_required
    by_cases ha : authorized
    · simp only [ha, not_true_eq_false, if_false]
      by_cases hc : sess.domain.isSome ∧ sess.account.isSome
      · simp only [hc, if_true]
        exact finishCheck_not_raises _ _ _
      · simp only [hc, if_false]
        by_cases hs : profile.status ≠ 200
        · simp [hs, AuthResult.isRaises]
        · simp only [hs, if_false]
          cases hb : profile.body with
          | obj fields =>
              by_cases hd : isNullOpt (jsonGet fields "domain") = true
              · simp [hd, AuthResult.isRaises]
              · simp only [hd, if_false]
                cases hm : lookupKey fields "emails" with
                | none => simp [jsonGet, hm, AuthResult.isRaises]
                | some v =>
                    cases v with
                    | null => simp [jsonGet, hm, AuthResult.isRaises]
                    | arr es =>
                        have hall : ∀ e ∈ es, emailWF e = true := by
                          rw [hb] at hwf
                          simpa [profileWF, hm, List.all_eq_true] using hwf
                        obtain ⟨o, ho⟩ := findAccount_ok_of_wf es hall
                        cases o with
                        | some v =>
                            simp [jsonGet, hm, ho, finishCheck_not_raises]
                        | none => simp [jsonGet, hm, ho, AuthResult.isRaises]
                    | str s => rw [hb] at hwf; simp [profileWF, hm] at hwf
                    | num n => rw [hb] at hwf; simp [profileWF, hm] at hwf
                    | bool b => rw [hb] at hwf; simp [profileWF, hm] at hwf
                    | obj o => rw [hb] at hwf; simp [profileWF, hm] at hwf
          | null => rw [hb] at hwf; simp [profileWF] at hwf
          | bool b => rw [hb] at hwf; simp [profileWF] at hwf
          | str s => rw [hb] at hwf; simp [profileWF] at hwf
          | num n => rw [hb] at hwf; simp [profileWF] at hwf
          | arr xs => rw [hb] at hwf; simp [profileWF] at hwf
    · simp [ha, AuthResult.isRaises]
  · intro urlValid urlQuery parse_qsl now account form getResp setResp
      hpol hset
    unfold add_conditional_binding
    by_cases hp : project_from_field urlValid urlQuery parse_qsl
        form.project = ""
    · simp [hp]
    · simp only [hp, if_false]
      by_cases hg : getResp.status ≠ 200
      · simp [hg]
      · simp only [hg, if_false]
        cases hb : getResp.body with
        | obj fs =>
            cases hbk : lookupKey fs "bindings" with
            | some v =>
                cases v with
                | arr bs =>
                    simp only [appendBinding, hbk]
                    by_cases hs2 : setResp.status ≠ 200
                    · rcases hset with hs200 | hewf
                      · exact absurd hs200 hs2
                      · cases hsb : setResp.body with
                        | obj efs =>
                            rw [hsb] at hewf
                            cases hek : lookupKey efs "error" with
                            | some ev =>
                                cases ev with
                                | obj mfs =>
                                    cases hmk : lookupKey mfs "message" with
                                    | some m =>
                                        simp [hs2, hsb, JSON.getKey, hek,
                                          hmk]
                                    | none =>
                                        simp [errorBodyWF, hek, hmk] at hewf
                                | null => simp [errorBodyWF, hek] at hewf
                                | bool b => simp [errorBodyWF, hek] at hewf
                                | str s => simp [errorBodyWF, hek] at hewf
                                | num n => simp [errorBodyWF, hek] at hewf
                                | arr xs => simp [errorBodyWF, hek] at hewf
                            | none => simp [errorBodyWF, hek] at hewf
                        | null => rw [hsb] at hewf; simp [errorBodyWF] at hewf
                        | bool b =>
                            rw [hsb] at hewf; simp [errorBodyWF] at hewf
                        | str s =>
                            rw [hsb] at hewf; simp [errorBodyWF] at hewf
                        | num n =>
                            rw [hsb] at hewf; simp [errorBodyWF] at hewf
                        | arr xs =>
                            rw [hsb] at hewf; simp [errorBodyWF] at hewf
                    · simp [hs2]
                | null => rw [hb] at hpol; simp [policyBodyWF, hbk] at hpol
                | bool b => rw [hb] at hpol; simp [policyBodyWF, hbk] at hpol
                | str s => rw [hb] at hpol; simp [policyBodyWF, hbk] at hpol
                | num n => rw [hb] at hpol; simp [policyBodyWF, hbk] at hpol
                | obj o => rw [hb] at hpol; simp [policyBodyWF, hbk] at hpol
            | none => rw [hb] at hpol; simp [policyBodyWF, hbk] at hpol
        | null => rw [hb] at hpol; simp [policyBodyWF] at hpol
        | bool b => rw [hb] at hpol; simp [policyBodyWF] at hpol
        | str s => rw [hb] at hpol; simp [policyBodyWF] at hpol
        | num n => rw [hb] at hpol; simp [policyBodyWF] at hpol
        | arr xs => rw [hb] at hpol; simp [policyBodyWF] at hpol

/-- C1 amended witness: concrete well-formed bodies on both paths. -/
theorem C1_witness :
    ((login_required true ⟨none, none⟩
        ⟨200, .obj [("domain", .str "acme.com")]⟩
        none).outcome.isRaises = false) ∧
    ((add_conditional_binding (fun _ => false) (fun _ => "") (fun _ => [])
        0 "a" ⟨"p", 1, "t", "d", "r"⟩ ⟨200, .obj [("bindings", .arr [])]⟩
        ⟨200, .null⟩).exn = none ∧
     (add_conditional_binding (fun _ => false) (fun _ => "") (fun _ => [])
        0 "a" ⟨"p", 1, "t", "d", "r"⟩ ⟨200, .obj [("bindings", .arr [])]⟩
        ⟨200, .null⟩).flashes.length = 1) :=
  ⟨C1_checked_errors_handled_when_wellformed.1 true ⟨none, none⟩
      ⟨200, .obj [("domain", .str "acme.com")]⟩ none rfl,
   C1_checked_errors_handled_when_wellformed.2 _ _ _ _ _ _ _ _ rfl
      (Or.inl rfl)⟩

end Gimme
